import Mathlib

set_option linter.unusedVariables false

/-!
Verification of the ActionMesh worker service (job store, processing
pipeline, output collection, HTTP endpoints) against its specification.

The Python sources are shallowly embedded:
* file names are `String`s compared by Unicode code point, as Python compares
  `str` (and `pathlib.Path` objects inside a single directory);
* a directory is its listing, a `List String` of entries in enumeration order;
* `subprocess.run` invocations are modelled by an explicit call record
  (command line and keyword arguments) plus an environment-chosen outcome;
* the interaction of `process_job` with the outside world (file system,
  external ActionMesh process) is captured by an `ExternalWorld` record, and
  `process_job` is a pure function of the store, its arguments and that world;
* a Python exception escaping a function is an `Except.error` carrying
  `str(e)`.
-/

/-! ## Strings: Python-style code-point comparison and substring test -/

/-- Lexicographic comparison of character lists by Unicode code point:
the order Python uses to compare `str` values (and hence the order produced
by `sorted` on file names). -/
def lexLe : List Char → List Char → Bool
  | [], _ => true
  | _ :: _, [] => false
  | a :: as, b :: bs =>
      if a.toNat < b.toNat then true
      else if b.toNat < a.toNat then false
      else lexLe as bs

/-- `a ≤ b` on file names, as Python string comparison. -/
def NameLe (a b : String) : Prop := lexLe a.toList b.toList = true

instance : DecidableRel NameLe := fun a b => by
  unfold NameLe
  infer_instance

/-- Python's `sorted` on a list of names: a stable sort under code-point
lexicographic order (insertion sort is stable, like CPython's sort). -/
def sortNames (l : List String) : List String := l.insertionSort NameLe

/-- Helper for the substring test: does `sub` occur contiguously in the
second list? -/
def charsContain (sub : List Char) : List Char → Bool
  | [] => sub.isEmpty
  | c :: tl => sub.isPrefixOf (c :: tl) || charsContain sub tl

/-- Python's substring operator `sub in s`. -/
def strContains (s sub : String) : Bool := charsContain sub.toList s.toList

/-- Python's `s.endswith(suffix)`. -/
def strEndsWith (s suffix : String) : Bool := suffix.toList.isSuffixOf s.toList

/-! ## Glob patterns

Every glob pattern appearing in the sources has the shape
`literal-prefix * literal-suffix`.  `pathlib.Path.glob` matches such a
pattern against a directory entry iff the entry carries the literal prefix
and suffix (without overlapping) and, when the pattern starts with `*`,
does not begin with a dot (hidden files are not matched by a leading
wildcard). -/

/-- Match one directory entry against the pattern `pre*post`. -/
def matchStarPat (pre post name : String) : Bool :=
  pre.toList.isPrefixOf name.toList &&
  post.toList.isSuffixOf name.toList &&
  decide (pre.toList.length + post.toList.length ≤ name.toList.length) &&
  (decide (0 < pre.toList.length) || !(['.'].isPrefixOf name.toList))

/-- `glob("*.png")` membership test. -/
def png_glob (name : String) : Bool := matchStarPat "" ".png" name

/-- `glob("mesh_*.glb")` membership test: the per-unit artifact pattern. -/
def mesh_glob (name : String) : Bool := matchStarPat "mesh_" ".glb" name

/-- `glob("*.mp4")` membership test. -/
def mp4_glob (name : String) : Bool := matchStarPat "" ".mp4" name

/-- `glob("*.MP4")` membership test (case-sensitive, as on Linux). -/
def mp4_upper_glob (name : String) : Bool := matchStarPat "" ".MP4" name

/-- `glob("render*.mp4")` membership test. -/
def render_mp4_glob (name : String) : Bool := matchStarPat "render" ".mp4" name

/-- `glob("preview*.mp4")` membership test. -/
def preview_mp4_glob (name : String) : Bool := matchStarPat "preview" ".mp4" name

/-! ## Data model (`job_store.py`) -/

/-- `JobStatus` from `job_store.py`. -/
inductive JobStatus where
  | queued
  | running
  | finished
  | error
  deriving DecidableEq, Repr

/-- The outputs dictionary built by `process_job` / `_collect_outputs` /
`handler`: `{"per_frame_meshes": [...], "animated_mesh": ..., "preview_video": ...}`. -/
structure Outputs where
  per_frame_meshes : List String
  animated_mesh : Option String
  preview_video : Option String
  deriving DecidableEq, Repr

/-- The `Job` dataclass.  Timestamps are abstract ticks (`Nat`);
`datetime.utcnow()` is supplied by the caller as `now`. -/
structure Job where
  job_id : String
  status : JobStatus
  created_at : Nat
  updated_at : Nat
  error : Option String
  outputs : Option Outputs
  deriving DecidableEq, Repr

/-- The in-memory store `JobStore._jobs`, in insertion order.  All claims
here concern single-threaded executions, so the `threading.Lock` that
serializes each method is not represented. -/
abbrev JobStore := List Job

/-- `JobStore.get`. -/
def JobStore.get (store : JobStore) (job_id : String) : Option Job :=
  store.find? (fun j => j.job_id == job_id)

/-- `JobStore.create`: raises `ValueError` on a duplicate id, otherwise
inserts a fresh QUEUED record. -/
def JobStore.create (store : JobStore) (job_id : String) (now : Nat) :
    Except String JobStore :=
  match store.find? (fun j => j.job_id == job_id) with
  | some _ => .error ("Job " ++ job_id ++ " already exists")
  | none =>
      .ok (store ++ [{ job_id := job_id, status := .queued, created_at := now,
                       updated_at := now, error := none, outputs := none }])

/-- The field updates `JobStore.update` applies to the matching record:
each of `status`/`error`/`outputs` is written only when provided, and
`updated_at` is always refreshed. -/
def Job.applyUpdate (j : Job) (status : Option JobStatus) (error : Option String)
    (outputs : Option Outputs) (now : Nat) : Job :=
  { j with
    status := match status with | some s => s | none => j.status,
    error := match error with | some e => some e | none => j.error,
    outputs := match outputs with | some o => some o | none => j.outputs,
    updated_at := now }

/-- `JobStore.update`.  The Python method also returns the updated record
(or `None` when the id is unknown); no caller in the sources uses that
return value, so only the store effect is modelled. -/
def JobStore.update (store : JobStore) (job_id : String) (status : Option JobStatus)
    (error : Option String) (outputs : Option Outputs) (now : Nat) : JobStore :=
  store.map (fun j => if j.job_id == job_id then j.applyUpdate status error outputs now else j)

/-- `JobStore.delete`: removes the record if present, returning whether it
existed together with the resulting store. -/
def JobStore.delete (store : JobStore) (job_id : String) : Bool × JobStore :=
  if store.any (fun j => j.job_id == job_id) then
    (true, store.filter (fun j => !(j.job_id == job_id)))
  else
    (false, store)

/-! ## Output collection

A directory is modelled as its listing (entry names in enumeration order).
`sorted(dir.glob(pat))` sorts the returned `Path` objects; within one
directory `Path` order is the code-point order of the entry names, so it is
modelled as `sortNames` of the matching names followed by prefixing the
directory path (prefixing every element with the same string preserves that
order). -/

/-- `_collect_outputs` from `actionmesh_wrapper.py`: per-frame meshes are
the sorted `mesh_*.glb` matches; `animated_mesh` is set iff
`animated_mesh.glb` exists; the preview loop tries the patterns `*.mp4`,
`render*.mp4`, `preview*.mp4` in order and stops at the first pattern that
produced a match (`if outputs["preview_video"]: break`). -/
def _collect_outputs (output_path : String) (listing : List String) : Outputs :=
  { per_frame_meshes :=
      (sortNames (listing.filter mesh_glob)).map (fun n => output_path ++ "/" ++ n),
    animated_mesh :=
      if listing.contains "animated_mesh.glb" then
        some (output_path ++ "/" ++ "animated_mesh.glb")
      else none,
    preview_video :=
      match listing.find? mp4_glob with
      | some v => some (output_path ++ "/" ++ v)
      | none =>
        match listing.find? render_mp4_glob with
        | some v => some (output_path ++ "/" ++ v)
        | none =>
          match listing.find? preview_mp4_glob with
          | some v => some (output_path ++ "/" ++ v)
          | none => none }

/-- The inline output collection of `process_job` (`main.py` lines 149-169).
Artifact locators are URL paths `/outputs/{job_id}/{name}`.  Unlike the
wrapper collector, the preview loop over `["*.mp4", "*.MP4"]` has no outer
break, so a first `*.MP4` match overwrites a previously found `*.mp4`
match. -/
def process_job_collect_outputs (job_id : String) (listing : List String) : Outputs :=
  { per_frame_meshes :=
      (sortNames (listing.filter mesh_glob)).map
        (fun n => "/outputs/" ++ job_id ++ "/" ++ n),
    animated_mesh :=
      if listing.contains "animated_mesh.glb" then
        some ("/outputs/" ++ job_id ++ "/animated_mesh.glb")
      else none,
    preview_video :=
      let after_lower :=
        match listing.find? mp4_glob with
        | some v => some ("/outputs/" ++ job_id ++ "/" ++ v)
        | none => none
      match listing.find? mp4_upper_glob with
      | some v => some ("/outputs/" ++ job_id ++ "/" ++ v)
      | none => after_lower }

/-- The output collection of the serverless `handler` (`handler.py` lines
211-232).  `encode` abstracts `file_to_base64_url`, which reads the file's
bytes (outside the directory-listing model) and wraps them in a data URL.
Only the first 5 sorted `mesh_*.glb` files are encoded (`mesh_files[:5]`). -/
def handler_collect_outputs (listing : List String) (encode : String → String) : Outputs :=
  { per_frame_meshes :=
      ((sortNames (listing.filter mesh_glob)).take 5).map encode,
    animated_mesh :=
      if listing.contains "animated_mesh.glb" then some (encode "animated_mesh.glb")
      else none,
    preview_video :=
      match listing.find? mp4_glob with
      | some v => some (encode v)
      | none => none }

/-- One run of the wrapper collector over a directory state.  The Python
code only reads the directory (`glob`, `exists`); it never creates,
deletes or renames entries, so a run returns the directory unchanged
together with the collected result. -/
def collector_run (output_path : String) (dir : List String) : List String × Outputs :=
  (dir, _collect_outputs output_path dir)

/-- One run of the inline `process_job` collector over a directory state
(read-only, like `collector_run`). -/
def collector_run_main (job_id : String) (dir : List String) : List String × Outputs :=
  (dir, process_job_collect_outputs job_id dir)

/-! ## The external ActionMesh invocation (`actionmesh_wrapper.py`, `handler.py`) -/

/-- The arguments of a `subprocess.run(...)` invocation: the command line
and the keyword arguments appearing at the two ActionMesh call sites.
`timeout` is `some n` iff a `timeout=n` keyword is passed. -/
structure SubprocessCall where
  cmd : List String
  capture_output : Bool
  text : Bool
  check : Bool
  timeout : Option Nat
  deriving DecidableEq, Repr

/-- The command line built by `run_actionmesh` in `actionmesh_wrapper.py`
(lines 204-218). -/
def actionmesh_cmd (python_exe inference_script input_path output_path : String)
    (fast low_ram : Bool) (blender_path : Option String) : List String :=
  [python_exe, inference_script, "--input", input_path, "--output", output_path]
    ++ (if fast then ["--fast"] else [])
    ++ (if low_ram then ["--low_ram"] else [])
    ++ (match blender_path with
        | some b => ["--blender_path", b]
        | none => [])

/-- The `subprocess.run` invocation of `run_actionmesh` in
`actionmesh_wrapper.py` (lines 222-229): `capture_output=True, text=True,
check=True`, and no `timeout` keyword. -/
def run_actionmesh_call (python_exe inference_script input_path output_path : String)
    (fast low_ram : Bool) (blender_path : Option String) : SubprocessCall :=
  { cmd := actionmesh_cmd python_exe inference_script input_path output_path
      fast low_ram blender_path,
    capture_output := true, text := true, check := true, timeout := none }

/-- The `subprocess.run` invocation of `run_actionmesh` in `handler.py`
(line 119): same command line without the blender option,
`capture_output=True, text=True`, no `check`, and no `timeout` keyword. -/
def handler_run_actionmesh_call (python_exe inference_script input_dir output_dir : String)
    (fast low_ram : Bool) : SubprocessCall :=
  { cmd := actionmesh_cmd python_exe inference_script input_dir output_dir
      fast low_ram none,
    capture_output := true, text := true, check := false, timeout := none }

/-- The outcome of one completed external process (`CompletedProcess`). -/
structure SubprocResult where
  returncode : Int
  stdout : String
  stderr : String
  deriving DecidableEq, Repr

/-- Everything `process_job` and `run_actionmesh` observe of the outside
world during one execution: file-system outcomes and the external tool's
behaviour.  Each field corresponds to one fallible or environment-dependent
statement of the sources. -/
structure ExternalWorld where
  /-- Outcome of `output_dir.mkdir(parents=True, exist_ok=True)` in
  `process_job` (`main.py` line 115) — the one statement that runs before
  the `try` block. -/
  process_mkdir_fails : Bool
  /-- Listing of the job's `input` directory. -/
  input_listing : List String
  /-- Outcome of `output_path.mkdir(parents=True, exist_ok=True)` inside
  `run_actionmesh` (`actionmesh_wrapper.py` line 177). -/
  wrapper_mkdir_fails : Bool
  /-- `input_path.exists()` (`actionmesh_wrapper.py` line 180). -/
  input_dir_exists : Bool
  /-- `inference_script.exists()` (`actionmesh_wrapper.py` line 197). -/
  inference_script_exists : Bool
  /-- Result of the external inference process when the script is invoked. -/
  subproc : SubprocResult
  /-- Whether `from actionmesh.inference import run_inference` succeeds in
  the `_run_actionmesh_direct` fallback. -/
  direct_import_ok : Bool
  /-- Outcome of `run_inference(...)` in the fallback (`Except.error e`
  models it raising an exception whose `str` is `e`). -/
  direct_run : Except String Unit
  /-- Listing of the job's `output` directory after the external tool ran. -/
  output_listing : List String
  deriving Repr

/-- `validate_frame_count` from `actionmesh_wrapper.py`: counts the
`*.png` entries of the input directory and raises `ValueError` below 16
(the over-31 case only prints a warning). -/
def validate_frame_count (input_listing : List String) : Except String Nat :=
  let frame_count := (sortNames (input_listing.filter png_glob)).length
  if frame_count < 16 then
    .error ("Too few frames: " ++ toString frame_count ++
      ". ActionMesh requires at least 16 frames.")
  else .ok frame_count

/-- `_run_actionmesh_direct`: the fallback when the inference script is
absent.  An `ImportError` becomes the fixed `RuntimeError` message; any
exception raised by `run_inference` itself propagates unchanged; on
success the outputs are collected. -/
def _run_actionmesh_direct (output_dir : String) (w : ExternalWorld) :
    Except String Outputs :=
  if !w.direct_import_ok then
    .error ("ActionMesh not found. Please either:\n" ++
      "1. Clone the repo: git clone https://github.com/facebookresearch/actionmesh.git actionmesh_repo\n" ++
      "2. Install ActionMesh: pip install -e actionmesh_repo/\n" ++
      "See the worker README for setup instructions.")
  else
    match w.direct_run with
    | .error e => .error e
    | .ok _ => .ok (_collect_outputs output_dir w.output_listing)

/-- `run_actionmesh` from `actionmesh_wrapper.py`, for a directory input
(every caller in the sources passes a directory, so the video-file branch
of lines 184-189 is never taken and is not modelled).  `subprocess.run`
with `check=True` raises `CalledProcessError` exactly when the process
exits non-zero, which becomes `RuntimeError("ActionMesh inference failed:
" + stderr)`. -/
def run_actionmesh (input_dir output_dir : String) (fast low_ram : Bool)
    (blender_path : Option String) (w : ExternalWorld) : Except String Outputs :=
  if w.wrapper_mkdir_fails then
    .error ("could not create output directory: " ++ output_dir)
  else if !w.input_dir_exists then
    .error ("Input directory does not exist: " ++ input_dir)
  else
    match validate_frame_count w.input_listing with
    | .error e => .error e
    | .ok _ =>
      if w.inference_script_exists then
        if w.subproc.returncode ≠ 0 then
          .error ("ActionMesh inference failed: " ++ w.subproc.stderr)
        else
          .ok (_collect_outputs output_dir w.output_listing)
      else
        _run_actionmesh_direct output_dir w

/-! ## The job pipeline (`main.py`) -/

/-- `ProcessingMode` from `main.py`. -/
inductive ProcessingMode where
  | default
  | fast
  | fast_low_ram
  deriving DecidableEq, Repr

/-- `get_mode_flags`: processing mode to `(fast, low_ram)`. -/
def get_mode_flags : ProcessingMode → Bool × Bool
  | .default => (false, false)
  | .fast => (true, false)
  | .fast_low_ram => (true, true)

/-- One `job_store.update(job_id, ...)` call issued by `process_job`:
the keyword arguments that were passed. -/
structure UpdateCall where
  status : Option JobStatus
  error : Option String
  outputs : Option Outputs
  deriving DecidableEq, Repr

/-- The computation of the `try` block of `process_job` after the RUNNING
update (`main.py` lines 121-172): frame-count validation, the external
invocation, and the inline output collection.  `Except.error e` models an
exception with `str(e)` reaching the `except Exception` handler. -/
def process_job_body (job_id : String) (mode : ProcessingMode) (blender_export : Bool)
    (BLENDER_PATH : Option String) (JOBS_DIR : String) (w : ExternalWorld) :
    Except String Outputs :=
  let input_dir := JOBS_DIR ++ "/" ++ job_id ++ "/input"
  let output_dir := JOBS_DIR ++ "/" ++ job_id ++ "/output"
  let frame_files := w.input_listing.filter png_glob
  if frame_files.length = 0 then
    .error "No frames found in input directory"
  else if frame_files.length < 16 then
    .error ("Video too short: " ++ toString frame_files.length ++
      " frames. ActionMesh requires at least 16 frames.")
  else
    let flags := get_mode_flags mode
    let blender_path := if blender_export then BLENDER_PATH else none
    match run_actionmesh input_dir output_dir flags.1 flags.2 blender_path w with
    | .error e => .error e
    | .ok _ => .ok (process_job_collect_outputs job_id w.output_listing)

/-- The final `job_store.update` keyword arguments determined by the
outcome of the `try` block: FINISHED with the collected outputs, or the
`except` handler's ERROR with `str(e)`. -/
def term_call : Except String Outputs → UpdateCall
  | .ok outs => { status := some .finished, error := none, outputs := some outs }
  | .error e => { status := some .error, error := some e, outputs := none }

/-- The sequence of `job_store.update` calls one execution of `process_job`
performs (`main.py` lines 106-176), or `Except.error e` when an exception
escapes `process_job` itself.

The source reads the store once (`job_store.get`) and afterwards only
writes to it, so the calls are determined by the initial store, the
arguments and the external world:
* an unknown id returns immediately (no calls);
* `output_dir.mkdir` (line 115) runs before the `try` block — if it
  raises, the exception propagates out of `process_job` with no update
  performed;
* inside the `try`, the RUNNING update always happens first, and every
  exception from the remaining statements is caught by `except Exception`
  and converted into one ERROR update carrying `str(e)`. -/
def process_job_calls (store : JobStore) (job_id : String) (mode : ProcessingMode)
    (blender_export : Bool) (BLENDER_PATH : Option String) (JOBS_DIR : String)
    (w : ExternalWorld) : Except String (List UpdateCall) :=
  match store.get job_id with
  | none => .ok []
  | some _ =>
    if w.process_mkdir_fails then
      .error ("could not create output directory: " ++
        JOBS_DIR ++ "/" ++ job_id ++ "/output")
    else
      .ok [{ status := some .running, error := none, outputs := none },
           term_call (process_job_body job_id mode blender_export BLENDER_PATH JOBS_DIR w)]

/-- Apply a sequence of update calls for one job to the store. -/
def applyCalls (store : JobStore) (job_id : String) (now : Nat)
    (calls : List UpdateCall) : JobStore :=
  calls.foldl (fun s c => JobStore.update s job_id c.status c.error c.outputs now) store

/-- `process_job`: the store after one execution, or `Except.error e` when
an exception escapes `process_job` itself (leaving the store untouched).
All updates share one `now` tick; the claims do not inspect `updated_at`. -/
def process_job (store : JobStore) (job_id : String) (mode : ProcessingMode)
    (blender_export : Bool) (BLENDER_PATH : Option String) (JOBS_DIR : String)
    (w : ExternalWorld) (now : Nat) : Except String JobStore :=
  match process_job_calls store job_id mode blender_export BLENDER_PATH JOBS_DIR w with
  | .error e => .error e
  | .ok calls => .ok (applyCalls store job_id now calls)

/-- The sequence of statuses a freshly created record passes through when
`process_job` executes it: QUEUED at creation, then every status value
written by the execution's update calls (none when the exception from
`output_dir.mkdir` propagates). -/
def status_trace (store : JobStore) (job_id : String) (mode : ProcessingMode)
    (blender_export : Bool) (BLENDER_PATH : Option String) (JOBS_DIR : String)
    (w : ExternalWorld) : List JobStatus :=
  match process_job_calls store job_id mode blender_export BLENDER_PATH JOBS_DIR w with
  | .error _ => [JobStatus.queued]
  | .ok calls => JobStatus.queued :: calls.filterMap UpdateCall.status

/-- The status paths of the specified state machine
`QUEUED → RUNNING → (FINISHED | ERROR)` starting at QUEUED: exactly the
prefixes of its two maximal runs.  Terminal states have no successor and
RUNNING is the only way into FINISHED or ERROR. -/
def validTrace : List JobStatus → Bool
  | [JobStatus.queued] => true
  | [JobStatus.queued, JobStatus.running] => true
  | [JobStatus.queued, JobStatus.running, JobStatus.finished] => true
  | [JobStatus.queued, JobStatus.running, JobStatus.error] => true
  | _ => false

/-! ## HTTP endpoints (`main.py`) -/

/-- A FastAPI `HTTPException(status_code, detail)`. -/
structure HTTPException where
  status_code : Nat
  detail : String
  deriving DecidableEq, Repr

/-- A FastAPI `FileResponse`. -/
structure FileResponse where
  path : String
  filename : String
  media_type : String
  deriving DecidableEq, Repr

/-- `download_output` (`GET /outputs/{job_id}/{filename}`, `main.py` lines
310-341).  `output_listing` is the listing of the job's `output` directory
(`file_path.exists()` is membership of `filename` in it). -/
def download_output (store : JobStore) (JOBS_DIR job_id filename : String)
    (output_listing : List String) : Except HTTPException FileResponse :=
  match store.get job_id with
  | none => .error { status_code := 404, detail := "Job not found" }
  | some job =>
    if job.status ≠ .finished then
      .error { status_code := 400, detail := "Job not finished" }
    else if strContains filename ".." || strContains filename "/" then
      .error { status_code := 400, detail := "Invalid filename" }
    else if !(output_listing.contains filename) then
      .error { status_code := 404, detail := "File not found" }
    else
      .ok { path := JOBS_DIR ++ "/" ++ job_id ++ "/output/" ++ filename,
            filename := filename,
            media_type :=
              if strEndsWith filename ".glb" then "model/gltf-binary"
              else if strEndsWith filename ".mp4" then "video/mp4"
              else if strEndsWith filename ".zip" then "application/zip"
              else "application/octet-stream" }

/-- The observable outcome of `delete_job`: the HTTP response, the
resulting store, and whether the job's directory still exists. -/
structure DeleteOutcome where
  response : Except HTTPException String
  store : JobStore
  job_dir_exists : Bool
  deriving Repr

/-- `delete_job` (`DELETE /jobs/{job_id}`, `main.py` lines 370-389):
404 when the id is unknown; 400 and no change when the job is RUNNING;
otherwise `shutil.rmtree` on the job directory (when present) and removal
from the store. -/
def delete_job (store : JobStore) (job_id : String) (job_dir_exists : Bool) :
    DeleteOutcome :=
  match store.get job_id with
  | none =>
      { response := .error { status_code := 404, detail := "Job not found" },
        store := store, job_dir_exists := job_dir_exists }
  | some job =>
    if job.status = .running then
      { response := .error { status_code := 400, detail := "Cannot delete running job" },
        store := store, job_dir_exists := job_dir_exists }
    else
      { response := .ok "deleted",
        store := (JobStore.delete store job_id).2,
        job_dir_exists := false }

/-! ## Concrete fixtures -/

/-- Sixteen extracted frames: the minimum count `process_job` accepts. -/
def frames16 : List String :=
  ["000.png", "001.png", "002.png", "003.png", "004.png", "005.png", "006.png",
   "007.png", "008.png", "009.png", "010.png", "011.png", "012.png", "013.png",
   "014.png", "015.png"]

/-- A world in which every file-system operation and the external tool
succeed, but the output directory ends up empty. -/
def okWorld : ExternalWorld :=
  { process_mkdir_fails := false,
    input_listing := frames16,
    wrapper_mkdir_fails := false,
    input_dir_exists := true,
    inference_script_exists := true,
    subproc := { returncode := 0, stdout := "", stderr := "" },
    direct_import_ok := true,
    direct_run := .ok (),
    output_listing := [] }

/-- A store holding the single queued job `job-1`. -/
def store1 : JobStore :=
  [{ job_id := "job-1", status := .queued, created_at := 0, updated_at := 0,
     error := none, outputs := none }]

/-- `okWorld`, except that `output_dir.mkdir` in `process_job` raises. -/
def mkdirFailWorld : ExternalWorld := { okWorld with process_mkdir_fails := true }

/-- `okWorld`, except that the external inference process exits 1 with the
given stderr text. -/
def failWorld (stderr : String) : ExternalWorld :=
  { okWorld with subproc := { returncode := 1, stdout := "", stderr := stderr } }

/-- The `error` field stored for `job-1` after a `process_job` execution in
which the external inference process exited 1 with the given stderr. -/
def stored_error_after_failure (stderr : String) : Option String :=
  match process_job store1 "job-1" .fast_low_ram false none "/tmp/actionmesh_jobs"
      (failWorld stderr) 1 with
  | .ok s => (JobStore.get s "job-1").bind Job.error
  | .error _ => none

/-- A store holding one RUNNING job. -/
def running_store : JobStore :=
  [{ job_id := "job-r", status := .running, created_at := 0, updated_at := 0,
     error := none, outputs := none }]

/-- A store holding one FINISHED job. -/
def finished_store : JobStore :=
  [{ job_id := "job-f", status := .finished, created_at := 0, updated_at := 1,
     error := none,
     outputs := some { per_frame_meshes := ["/outputs/job-f/mesh_000.glb"],
                       animated_mesh := none, preview_video := none } }]

/-- An output directory with six per-frame meshes. -/
def six_meshes : List String :=
  ["mesh_000.glb", "mesh_001.glb", "mesh_002.glb", "mesh_003.glb",
   "mesh_004.glb", "mesh_005.glb"]

/-- The numeric index embedded in a per-unit artifact name (the digits
between `mesh_` and `.glb`), when they parse.  This vocabulary comes from
the specification's sort-by-embedded-index requirement; the code itself
never parses indices. -/
def mesh_index (name : String) : Option Nat :=
  if mesh_glob name then
    let mid := (name.toList.drop 5).take (name.toList.length - 9)
    if mid ≠ [] ∧ mid.all Char.isDigit then
      some (mid.foldl (fun a c => a * 10 + (c.toNat - 48)) 0)
    else none
  else none

/-! ## General lemmas -/

theorem lexLe_total (a : List Char) : ∀ b, lexLe a b = true ∨ lexLe b a = true := by
  induction a with
  | nil => intro b; left; rfl
  | cons x xs ih =>
    intro b
    cases b with
    | nil => right; rfl
    | cons y ys =>
      simp only [lexLe]
      rcases Nat.lt_trichotomy x.toNat y.toNat with h | h | h
      · left
        simp [h]
      · have h1 : ¬ x.toNat < y.toNat := by omega
        have h2 : ¬ y.toNat < x.toNat := by omega
        simpa [h1, h2] using ih ys
      · right
        simp [h]

theorem lexLe_trans :
    ∀ (a b c : List Char), lexLe a b = true → lexLe b c = true → lexLe a c = true := by
  intro a
  induction a with
  | nil => intro b c _ _; rfl
  | cons x xs ih =>
    intro b c h1 h2
    cases b with
    | nil => simp [lexLe] at h1
    | cons y ys =>
      cases c with
      | nil => simp [lexLe] at h2
      | cons z zs =>
        simp only [lexLe] at h1 h2 ⊢
        by_cases hxy : x.toNat < y.toNat <;> by_cases hyz : y.toNat < z.toNat
        · simp [show x.toNat < z.toNat by omega]
        · by_cases hzy : z.toNat < y.toNat
          · simp [hxy, hyz, hzy] at h2
          · have : x.toNat < z.toNat := by omega
            simp [this]
        · by_cases hyx : y.toNat < x.toNat
          · simp [hxy, hyx] at h1
          · have : x.toNat < z.toNat := by omega
            simp [this]
        · by_cases hyx : y.toNat < x.toNat
          · simp [hxy, hyx] at h1
          · by_cases hzy : z.toNat < y.toNat
            · simp [hyz, hzy] at h2
            · have hxz : ¬ x.toNat < z.toNat := by omega
              have hzx : ¬ z.toNat < x.toNat := by omega
              simp only [hxy, hyx, if_false, if_true] at h1
              simp only [hyz, hzy, if_false, if_true] at h2
              simp only [hxz, hzx, if_false, if_true]
              exact ih ys zs h1 h2


/-! ## Store lemmas -/

theorem Job.job_id_applyUpdate (j : Job) (st : Option JobStatus) (e : Option String)
    (o : Option Outputs) (now : Nat) : (j.applyUpdate st e o now).job_id = j.job_id := rfl

/-- Reading a job after `update` sees exactly the applied field updates. -/
theorem JobStore.get_update (store : JobStore) (job_id : String) (st : Option JobStatus)
    (e : Option String) (o : Option Outputs) (now : Nat) :
    JobStore.get (JobStore.update store job_id st e o now) job_id =
      (JobStore.get store job_id).map (fun j => j.applyUpdate st e o now) := by
  induction store with
  | nil => rfl
  | cons j tl ih =>
    simp only [JobStore.update, JobStore.get, List.map_cons] at *
    by_cases h : j.job_id == job_id
    · rw [if_pos h,
        List.find?_cons_of_pos (p := fun (k : Job) => k.job_id == job_id)
          (a := j.applyUpdate st e o now) _ h,
        List.find?_cons_of_pos (p := fun (k : Job) => k.job_id == job_id) _ h,
        Option.map_some']
    · rw [if_neg h,
        List.find?_cons_of_neg (p := fun (k : Job) => k.job_id == job_id) _ h,
        List.find?_cons_of_neg (p := fun (k : Job) => k.job_id == job_id) _ h]
      exact ih

/-- Filtering out an id leaves no record with that id. -/
theorem JobStore.get_filter_out (store : JobStore) (job_id : String) :
    JobStore.get (store.filter (fun j => !(j.job_id == job_id))) job_id = none := by
  induction store with
  | nil => rfl
  | cons j tl ih =>
    by_cases hj : j.job_id == job_id
    · simp only [List.filter_cons, hj, Bool.not_true, Bool.false_eq_true, if_false]
      exact ih
    · have hj' : (j.job_id == job_id) = false := by
        exact Bool.not_eq_true _ |>.mp hj
      simp only [List.filter_cons, hj', Bool.not_false, if_pos, JobStore.get]
      rw [List.find?_cons_of_neg (p := fun (k : Job) => k.job_id == job_id) _ hj]
      exact ih

/-- After a successful `delete`, the id is gone from the store. -/
theorem JobStore.get_delete (store : JobStore) (job_id : String) :
    JobStore.get (JobStore.delete store job_id).2 job_id = none := by
  unfold JobStore.delete
  by_cases h : store.any (fun j => j.job_id == job_id)
  · simp only [h, if_pos]
    exact JobStore.get_filter_out store job_id
  · simp only [h, Bool.false_eq_true, if_false, JobStore.get]
    rw [Bool.not_eq_true, List.any_eq_false] at h
    rw [List.find?_eq_none]
    exact h

/-- `applyCalls` on the two-call sequence of one `process_job` execution. -/
theorem JobStore.get_applyCalls_two (store : JobStore) (job_id : String) (now : Nat)
    (c1 c2 : UpdateCall) :
    JobStore.get (applyCalls store job_id now [c1, c2]) job_id =
      (JobStore.get store job_id).map
        (fun j => (j.applyUpdate c1.status c1.error c1.outputs now).applyUpdate
          c2.status c2.error c2.outputs now) := by
  show JobStore.get
      (JobStore.update (JobStore.update store job_id c1.status c1.error c1.outputs now)
        job_id c2.status c2.error c2.outputs now) job_id = _
  rw [JobStore.get_update, JobStore.get_update, Option.map_map]
  rfl

/-! ## Pipeline shape lemmas -/

/-- When the job exists and `output_dir.mkdir` succeeds, one `process_job`
execution returns normally and performs exactly the RUNNING update followed
by the terminal update determined by the `try` block's outcome. -/
theorem process_job_run_shape (store : JobStore) (job_id : String) (mode : ProcessingMode)
    (blender_export : Bool) (BLENDER_PATH : Option String) (JOBS_DIR : String)
    (w : ExternalWorld) (now : Nat) (j : Job)
    (hj : JobStore.get store job_id = some j)
    (hm : w.process_mkdir_fails = false) :
    process_job store job_id mode blender_export BLENDER_PATH JOBS_DIR w now =
      .ok (applyCalls store job_id now
        [{ status := some .running, error := none, outputs := none },
         term_call (process_job_body job_id mode blender_export BLENDER_PATH JOBS_DIR w)]) := by
  unfold process_job process_job_calls
  rw [hj]
  simp [hm]

theorem term_call_status_cases (b : Except String Outputs) :
    (term_call b).status = some JobStatus.finished ∨
    (term_call b).status = some JobStatus.error := by
  cases b <;> simp [term_call]

/-! ## Claims -/

/-- C1 (counterexample): a job whose external invocation exits zero but
whose output collection yields zero recognizable artifacts (no per-frame
meshes, no animated mesh, no preview) ends FINISHED with an empty outputs
dictionary — not ERROR as the claim states. -/
theorem c1_zero_artifacts_counterexample :
    process_job store1 "job-1" ProcessingMode.fast_low_ram false none
        "/tmp/actionmesh_jobs" okWorld 1 =
      .ok [{ job_id := "job-1", status := JobStatus.finished, created_at := 0,
             updated_at := 1, error := none,
             outputs := some { per_frame_meshes := [], animated_mesh := none,
                               preview_video := none } }] ∧
    JobStatus.finished ≠ JobStatus.error :=
  ⟨rfl, by decide⟩

/-- C1 (amended): for every job whose external invocation succeeds but
whose output collection yields zero recognizable artifacts, `process_job`
marks the job FINISHED and stores the empty outputs dictionary; no
"no output produced" ERROR transition exists in the code. -/
theorem c1_zero_artifacts_finished (store : JobStore) (job_id : String)
    (mode : ProcessingMode) (blender_export : Bool) (BLENDER_PATH : Option String)
    (JOBS_DIR : String) (w : ExternalWorld) (now : Nat) (j : Job)
    (hj : JobStore.get store job_id = some j)
    (hm : w.process_mkdir_fails = false)
    (hbody : process_job_body job_id mode blender_export BLENDER_PATH JOBS_DIR w =
      .ok { per_frame_meshes := [], animated_mesh := none, preview_video := none }) :
    ∃ s, process_job store job_id mode blender_export BLENDER_PATH JOBS_DIR w now = .ok s ∧
      ∃ j2, JobStore.get s job_id = some j2 ∧ j2.status = JobStatus.finished ∧
        j2.outputs = some { per_frame_meshes := [], animated_mesh := none,
                            preview_video := none } := by
  have hshape := process_job_run_shape store job_id mode blender_export BLENDER_PATH
    JOBS_DIR w now j hj hm
  rw [hbody] at hshape
  refine ⟨_, hshape, ?_⟩
  rw [JobStore.get_applyCalls_two, hj]
  exact ⟨_, rfl, rfl, rfl⟩

/-- C1 witness: the amended statement at a concrete store and world. -/
theorem c1_zero_artifacts_finished_witness :
    ∃ s, process_job store1 "job-1" ProcessingMode.fast_low_ram false none
        "/tmp/actionmesh_jobs" okWorld 1 = .ok s ∧
      ∃ j2, JobStore.get s "job-1" = some j2 ∧ j2.status = JobStatus.finished ∧
        j2.outputs = some { per_frame_meshes := [], animated_mesh := none,
                            preview_video := none } :=
  c1_zero_artifacts_finished store1 "job-1" ProcessingMode.fast_low_ram false none
    "/tmp/actionmesh_jobs" okWorld 1 _ rfl rfl rfl

/-- C2 (counterexample): `output_dir.mkdir` (`main.py` line 115) runs
before the `try` block, so its failure propagates out of `process_job` and
the existing job record is left QUEUED. -/
theorem c2_mkdir_escape_counterexample :
    process_job store1 "job-1" ProcessingMode.fast_low_ram false none
        "/tmp/actionmesh_jobs" mkdirFailWorld 1 =
      .error "could not create output directory: /tmp/actionmesh_jobs/job-1/output" ∧
    (JobStore.get store1 "job-1").map Job.status = some JobStatus.queued :=
  ⟨rfl, rfl⟩

/-- C2 (amended): once the pre-`try` creation of the output directory has
succeeded, every failure of the execution — validation, the external
invocation, output collection — is caught and converted into a terminal
status, so `process_job` returns normally with the job FINISHED or ERROR;
only a failure of `output_dir.mkdir` itself escapes (leaving the job
QUEUED). -/
theorem c2_exceptions_converted_to_error (store : JobStore) (job_id : String)
    (mode : ProcessingMode) (blender_export : Bool) (BLENDER_PATH : Option String)
    (JOBS_DIR : String) (w : ExternalWorld) (now : Nat) (j : Job)
    (hj : JobStore.get store job_id = some j)
    (hm : w.process_mkdir_fails = false) :
    ∃ s, process_job store job_id mode blender_export BLENDER_PATH JOBS_DIR w now = .ok s ∧
      ∃ j2, JobStore.get s job_id = some j2 ∧
        (j2.status = JobStatus.finished ∨ j2.status = JobStatus.error) := by
  have hshape := process_job_run_shape store job_id mode blender_export BLENDER_PATH
    JOBS_DIR w now j hj hm
  refine ⟨_, hshape, ?_⟩
  rw [JobStore.get_applyCalls_two, hj]
  refine ⟨_, rfl, ?_⟩
  cases hb : process_job_body job_id mode blender_export BLENDER_PATH JOBS_DIR w <;>
    simp [term_call, Job.applyUpdate]

/-- C2 witness: the amended statement at a concrete store and world. -/
theorem c2_exceptions_converted_to_error_witness :
    ∃ s, process_job store1 "job-1" ProcessingMode.fast_low_ram false none
        "/tmp/actionmesh_jobs" okWorld 1 = .ok s ∧
      ∃ j2, JobStore.get s "job-1" = some j2 ∧
        (j2.status = JobStatus.finished ∨ j2.status = JobStatus.error) :=
  c2_exceptions_converted_to_error store1 "job-1" ProcessingMode.fast_low_ram false none
    "/tmp/actionmesh_jobs" okWorld 1 _ rfl rfl

/-- C3 (counterexample): both `subprocess.run` invocations of the external
transformation pass no `timeout` keyword, so no invocation is bounded by a
timeout. -/
theorem c3_no_timeout_counterexample :
    (run_actionmesh_call "python3" "actionmesh_repo/inference/video_to_animated_mesh.py"
        "/tmp/actionmesh_jobs/job-1/input" "/tmp/actionmesh_jobs/job-1/output"
        true true none).timeout = none ∧
    (handler_run_actionmesh_call "python3"
        "/runpod-volume/actionmesh/inference/video_to_animated_mesh.py"
        "/tmp/work/input" "/tmp/work/output" true true).timeout = none :=
  ⟨rfl, rfl⟩

/-- C3 (amended): for every argument combination, the worker and the
serverless handler invoke the external transformation without any timeout
bound; a hanging external tool is never forcibly terminated, and only an
abnormal exit is converted into an ERROR transition. -/
theorem c3_no_timeout (python_exe inference_script input_path output_path : String)
    (fast low_ram : Bool) (blender_path : Option String) :
    (run_actionmesh_call python_exe inference_script input_path output_path
        fast low_ram blender_path).timeout = none ∧
    (handler_run_actionmesh_call python_exe inference_script input_path output_path
        fast low_ram).timeout = none :=
  ⟨rfl, rfl⟩

/-- The `error` field written for a failed inference is the full
`RuntimeError` message with the entire captured stderr appended. -/
theorem stored_error_eval (stderr : String) :
    stored_error_after_failure stderr =
      some ("ActionMesh inference failed: " ++ stderr) := rfl

/-- C4 (counterexample): no bound exists on the stored diagnostic length;
whatever bound is proposed, a longer captured stderr produces a longer
stored `error` string, so diagnostics are stored unbounded, not truncated. -/
theorem c4_unbounded_counterexample :
    ¬ ∃ B : Nat, ∀ stderr : String,
        ((stored_error_after_failure stderr).map String.length).getD 0 ≤ B := by
  rintro ⟨B, hB⟩
  have h := hB (String.mk (List.replicate (B + 1) 'a'))
  rw [stored_error_eval] at h
  simp only [Option.map_some', Option.getD_some, String.length_append] at h
  have h1 : (String.mk (List.replicate (B + 1) 'a')).length = B + 1 := by
    simp [String.length]
  have h2 : ("ActionMesh inference failed: " : String).length = 29 := by decide
  omega

/-- C4 (amended): a failed external invocation stores the diagnostic text
in full — a fixed 29-character message followed by the entire captured
stderr — with no truncation whatsoever. -/
theorem c4_diagnostics_stored_untruncated (stderr : String) :
    stored_error_after_failure stderr =
      some ("ActionMesh inference failed: " ++ stderr) ∧
    ((stored_error_after_failure stderr).map String.length).getD 0 = 29 + stderr.length := by
  refine ⟨stored_error_eval stderr, ?_⟩
  rw [stored_error_eval]
  simp only [Option.map_some', Option.getD_some, String.length_append]
  have h2 : ("ActionMesh inference failed: " : String).length = 29 := by decide
  omega

/-- C5: every status history a record can go through — QUEUED at creation
followed by the statuses written by its `process_job` execution, over any
store, arguments and external world — is a path of the state machine
`QUEUED → RUNNING → (FINISHED | ERROR)`: no skipped transitions, and
terminal states are never left.  Moreover `create` can never overwrite an
existing record (it succeeds exactly on unknown ids), so no later creation
resets a live record to QUEUED. -/
theorem c5_state_machine (store : JobStore) (job_id : String) (mode : ProcessingMode)
    (blender_export : Bool) (BLENDER_PATH : Option String) (JOBS_DIR : String)
    (w : ExternalWorld) :
    validTrace (status_trace store job_id mode blender_export BLENDER_PATH JOBS_DIR w) = true ∧
    ∀ (id2 : String) (now : Nat),
      (∃ s, JobStore.create store id2 now = .ok s) ↔ JobStore.get store id2 = none := by
  constructor
  · unfold status_trace process_job_calls
    cases hg : JobStore.get store job_id with
    | none => rfl
    | some j =>
      cases hm : w.process_mkdir_fails with
      | true => rfl
      | false =>
        cases hb : process_job_body job_id mode blender_export BLENDER_PATH JOBS_DIR w <;>
          simp [term_call, validTrace]
  · intro id2 now
    unfold JobStore.create JobStore.get
    cases hf : store.find? (fun j => j.job_id == id2) with
    | none => simp
    | some j => simp

/-- C5 witness: the state-machine statement at a concrete store and world. -/
theorem c5_state_machine_witness :
    validTrace (status_trace store1 "job-1" ProcessingMode.fast_low_ram false none
      "/tmp/actionmesh_jobs" okWorld) = true :=
  (c5_state_machine store1 "job-1" ProcessingMode.fast_low_ram false none
    "/tmp/actionmesh_jobs" okWorld).1

/-- C6: output collection is deterministic and idempotent: a collector run
only reads the directory, and a second run over the unchanged directory
returns the identical items list, composite choice and preview choice —
for both the wrapper collector and the inline `process_job` collector. -/
theorem c6_collector_idempotent (output_path job_id : String) (dir : List String) :
    (collector_run output_path (collector_run output_path dir).1).2 =
        (collector_run output_path dir).2 ∧
    (collector_run output_path dir).1 = dir ∧
    (collector_run_main job_id (collector_run_main job_id dir).1).2 =
        (collector_run_main job_id dir).2 ∧
    (collector_run_main job_id dir).1 = dir :=
  ⟨rfl, rfl, rfl, rfl⟩

/-- C7 (counterexample): the collected per-unit items are sorted by plain
string comparison of the file names, not by the embedded numeric index —
`mesh_10.glb` is listed before `mesh_5.glb` although 10 > 5 — and a file
matching `mesh_*.glb` whose index is unparsable is included, not skipped. -/
theorem c7_index_sort_counterexample :
    (_collect_outputs "/out" ["mesh_10.glb", "mesh_5.glb"]).per_frame_meshes =
        ["/out/mesh_10.glb", "/out/mesh_5.glb"] ∧
    mesh_index "mesh_10.glb" = some 10 ∧
    mesh_index "mesh_5.glb" = some 5 ∧
    ¬ (10 ≤ 5) ∧
    (_collect_outputs "/out" ["mesh_abc.glb"]).per_frame_meshes = ["/out/mesh_abc.glb"] ∧
    mesh_index "mesh_abc.glb" = none := by
  decide

/-- C7 (amended): the collected items are exactly the files matching
`mesh_*.glb` — every match included, nothing skipped, names with
unparsable indices included too — ordered lexicographically by file name
(which agrees with numeric-index order only for equal-width zero-padded
names); the collection itself never fails. -/
theorem c7_lexicographic_items (output_path : String) (dir : List String) :
    (_collect_outputs output_path dir).per_frame_meshes =
      (sortNames (dir.filter mesh_glob)).map (fun n => output_path ++ "/" ++ n) ∧
    (sortNames (dir.filter mesh_glob)).Perm (dir.filter mesh_glob) ∧
    List.Sorted NameLe (sortNames (dir.filter mesh_glob)) := by
  have ht : IsTotal String NameLe := ⟨fun a b => lexLe_total a.toList b.toList⟩
  have htr : IsTrans String NameLe := ⟨fun a b c => lexLe_trans a.toList b.toList c.toList⟩
  exact ⟨rfl, List.perm_insertionSort NameLe _, List.sorted_insertionSort NameLe _⟩

/-- C8: deleting a RUNNING job fails with the explicit 400 error and
leaves the record and the job's files untouched; deleting a FINISHED or
ERROR job removes both the record from the store and the job's files. -/
theorem c8_delete_semantics (store : JobStore) (job_id : String) (dirExists : Bool)
    (j : Job) (hj : JobStore.get store job_id = some j) :
    (j.status = JobStatus.running →
       (delete_job store job_id dirExists).response =
         .error { status_code := 400, detail := "Cannot delete running job" } ∧
       (delete_job store job_id dirExists).store = store ∧
       (delete_job store job_id dirExists).job_dir_exists = dirExists) ∧
    ((j.status = JobStatus.finished ∨ j.status = JobStatus.error) →
       (delete_job store job_id dirExists).response = .ok "deleted" ∧
       JobStore.get (delete_job store job_id dirExists).store job_id = none ∧
       (delete_job store job_id dirExists).job_dir_exists = false) := by
  unfold delete_job
  rw [hj]
  dsimp only
  constructor
  · intro hr
    rw [if_pos hr]
    exact ⟨rfl, rfl, rfl⟩
  · intro ht
    have hne : j.status ≠ JobStatus.running := by
      rcases ht with h | h <;> simp [h]
    rw [if_neg hne]
    exact ⟨rfl, JobStore.get_delete store job_id, rfl⟩

/-- C8 witness: both branches at concrete stores. -/
theorem c8_delete_semantics_witness :
    ((delete_job running_store "job-r" true).response =
        .error { status_code := 400, detail := "Cannot delete running job" } ∧
      (delete_job running_store "job-r" true).store = running_store ∧
      (delete_job running_store "job-r" true).job_dir_exists = true) ∧
    ((delete_job finished_store "job-f" true).response = .ok "deleted" ∧
      JobStore.get (delete_job finished_store "job-f" true).store "job-f" = none ∧
      (delete_job finished_store "job-f" true).job_dir_exists = false) :=
  ⟨(c8_delete_semantics running_store "job-r" true _ rfl).1 rfl,
   (c8_delete_semantics finished_store "job-f" true _ rfl).2 (Or.inl rfl)⟩

/-- C9 (counterexample): fetching an artifact of a job that is not
FINISHED responds 400 ("Job not finished"), not 404 as the claim states. -/
theorem c9_not_finished_counterexample :
    download_output running_store "/tmp/actionmesh_jobs" "job-r" "mesh_000.glb" [] =
      .error { status_code := 400, detail := "Job not finished" } ∧
    (400 : Nat) ≠ 404 :=
  ⟨rfl, by decide⟩

/-- C9 (amended): the endpoint responds 404 when the job id is unknown and
when the artifact is absent, but 400 (not 404) when the job is not
FINISHED; and every artifact name containing `..` or `/` is rejected with
400 before any file-system resolution. -/
theorem c9_response_codes (store : JobStore) (JOBS_DIR job_id filename : String)
    (listing : List String) :
    (JobStore.get store job_id = none →
       download_output store JOBS_DIR job_id filename listing =
         .error { status_code := 404, detail := "Job not found" }) ∧
    (∀ j, JobStore.get store job_id = some j → j.status ≠ JobStatus.finished →
       download_output store JOBS_DIR job_id filename listing =
         .error { status_code := 400, detail := "Job not finished" }) ∧
    (∀ j, JobStore.get store job_id = some j → j.status = JobStatus.finished →
       (strContains filename ".." = true ∨ strContains filename "/" = true) →
       download_output store JOBS_DIR job_id filename listing =
         .error { status_code := 400, detail := "Invalid filename" }) ∧
    (∀ j, JobStore.get store job_id = some j → j.status = JobStatus.finished →
       strContains filename ".." = false → strContains filename "/" = false →
       listing.contains filename = false →
       download_output store JOBS_DIR job_id filename listing =
         .error { status_code := 404, detail := "File not found" }) := by
  refine ⟨?_, ?_, ?_, ?_⟩
  · intro h
    simp [download_output, h]
  · intro j hj hns
    simp [download_output, hj, hns]
  · intro j hj hs hc
    have hb : (strContains filename ".." || strContains filename "/") = true := by
      rcases hc with h | h <;> simp [h]
    simp [download_output, hj, hs, hb]
  · intro j hj hs h1 h2 h3
    simp [download_output, hj, hs, h1, h2, h3]
    simpa using h3

/-- C9 witness: all four response cases at concrete inputs. -/
theorem c9_response_codes_witness :
    download_output [] "/tmp/actionmesh_jobs" "nope" "a.glb" [] =
        .error { status_code := 404, detail := "Job not found" } ∧
    download_output running_store "/tmp/actionmesh_jobs" "job-r" "a.glb" [] =
        .error { status_code := 400, detail := "Job not finished" } ∧
    download_output finished_store "/tmp/actionmesh_jobs" "job-f" "../secret" [] =
        .error { status_code := 400, detail := "Invalid filename" } ∧
    download_output finished_store "/tmp/actionmesh_jobs" "job-f" "missing.glb" [] =
        .error { status_code := 404, detail := "File not found" } :=
  ⟨(c9_response_codes [] "/tmp/actionmesh_jobs" "nope" "a.glb" []).1 rfl,
   (c9_response_codes running_store "/tmp/actionmesh_jobs" "job-r" "a.glb" []).2.1
     _ rfl (by decide),
   (c9_response_codes finished_store "/tmp/actionmesh_jobs" "job-f" "../secret" []).2.2.1
     _ rfl rfl (Or.inl (by decide)),
   (c9_response_codes finished_store "/tmp/actionmesh_jobs" "job-f" "missing.glb" []).2.2.2
     _ rfl rfl (by decide) (by decide) (by decide)⟩

/-- C10: the serverless handler encodes only the first 5 per-frame meshes
in sorted file-name order — the returned list has length `min 5 N` for `N`
matching mesh files, so a run producing more than 5 meshes returns exactly
5 encoded entries. -/
theorem c10_handler_mesh_cap (listing : List String) (encode : String → String) :
    (handler_collect_outputs listing encode).per_frame_meshes =
      ((sortNames (listing.filter mesh_glob)).take 5).map encode ∧
    (handler_collect_outputs listing encode).per_frame_meshes.length =
      min 5 (listing.filter mesh_glob).length ∧
    (5 < (listing.filter mesh_glob).length →
      (handler_collect_outputs listing encode).per_frame_meshes.length = 5) := by
  have hlen : (sortNames (listing.filter mesh_glob)).length =
      (listing.filter mesh_glob).length :=
    (List.perm_insertionSort NameLe _).length_eq
  refine ⟨rfl, ?_, ?_⟩
  · simp [handler_collect_outputs, List.length_take, hlen]
  · intro h
    simp [handler_collect_outputs, List.length_take, hlen]
    omega

/-- C10 witness: six produced meshes yield exactly five encoded entries. -/
theorem c10_handler_mesh_cap_witness :
    5 < (six_meshes.filter mesh_glob).length ∧
    (handler_collect_outputs six_meshes (fun s => s)).per_frame_meshes.length = 5 :=
  ⟨by decide, (c10_handler_mesh_cap six_meshes (fun s => s)).2.2 (by decide)⟩
